import Mathlib

/-!
Shallow embedding of the ObsidianGTD FastAPI service (src/server) and proofs
about its request-handling behaviour.

The embedding follows the Python source:
- `src/server/models.py` — Pydantic request/response models and field validation;
- `src/server/config.py` — `Settings` construction from the environment;
- `src/server/bedrock_client.py` — the inference adapter `process_request`;
- `src/server/main.py` — the exception handlers and the `/process` handler.

Python strings are modelled by Lean `String`, `str.strip()` by `String.trim`,
`len(s.split())` by `wordCount`, dict/list lookups that may raise by `Option`
and `Except`, and exceptions by explicit outcome types.
-/

namespace ObsidianGTD

/-- Python `s.strip()`: drop whitespace from both ends (executable over the
character list so that concrete inputs evaluate in the kernel). -/
def pyStrip (s : String) : String :=
  String.mk
    (((s.data.dropWhile Char.isWhitespace).reverse.dropWhile
        Char.isWhitespace).reverse)

/-- Python `s.startswith(p)`. -/
def pyStartsWith (s p : String) : Bool :=
  p.data.isPrefixOf s.data

/-- Python `len(s.split())`: number of maximal runs of non-whitespace
characters (leading/trailing whitespace ignored). -/
def wordCount (s : String) : Nat :=
  (s.data.foldl
    (fun (st : Nat × Bool) c =>
      if c.isWhitespace then (st.1, false)
      else if st.2 then (st.1, true) else (st.1 + 1, true))
    (0, false)).1

/-! ## models.py -/

/-- `ProcessRequest` after successful validation: `task` and `content` hold the
values returned by `validate_not_whitespace`, i.e. the stripped inputs. -/
structure ProcessRequest where
  task : String
  content : String
deriving DecidableEq, Repr

/-- `ProcessMetadata` from models.py. -/
structure ProcessMetadata where
  model : String
  tokens_used : Nat
  processing_time_ms : Nat
deriving DecidableEq, Repr

/-- `ProcessResponse` from models.py; `status` is "success" or "error". -/
structure ProcessResponse where
  result : String
  status : String
  metadata : ProcessMetadata
deriving DecidableEq, Repr

/-- `ErrorDetail` from models.py. -/
structure ErrorDetail where
  type : String
  message : String
  details : String
deriving DecidableEq, Repr

/-- `ErrorResponse` from models.py. -/
structure ErrorResponse where
  error : ErrorDetail
deriving DecidableEq, Repr

/-- The raw JSON body of a `/process` request: each field is present
(`some`) or absent (`none`). -/
structure RawBody where
  task : Option String
  content : Option String
deriving DecidableEq, Repr

/-- Pydantic validation of a single string field of `ProcessRequest`:
`Field(min_length=1, max_length=maxLen)` runs on the raw value, then the
after-mode validator `validate_not_whitespace` strips it and rejects
whitespace-only values.  Errors carry the field location and message. -/
def validateField (name : String) (maxLen : Nat) (v : Option String) :
    Except (String × String) String :=
  match v with
  | none => .error (name, "Field required")
  | some s =>
    if s.length < 1 then
      .error (name, "String should have at least 1 character")
    else if s.length > maxLen then
      .error (name, "String should have at most " ++ toString maxLen ++ " characters")
    else if pyStrip s = "" then
      .error (name, "Value error, Field cannot be empty or whitespace only")
    else
      .ok (pyStrip s)

/-- Pydantic validation of the whole `ProcessRequest` body: `task` is bounded
by 100, `content` by 10000, and errors of both fields are collected (Pydantic
reports every invalid field, not only the first). -/
def validateProcessRequest (b : RawBody) :
    Except (List (String × String)) ProcessRequest :=
  match validateField "body.task" 100 b.task,
        validateField "body.content" 10000 b.content with
  | .ok t, .ok c => .ok ⟨t, c⟩
  | .error e, .ok _ => .error [e]
  | .ok _, .error e => .error [e]
  | .error e1, .error e2 => .error [e1, e2]

/-- `true` exactly when the body passes Pydantic validation. -/
def isAccepted (b : RawBody) : Bool :=
  match validateProcessRequest b with
  | .ok _ => true
  | .error _ => false

/-- Generic test for `Except.ok`. -/
def isOkE {ε α : Type} : Except ε α → Bool
  | .ok _ => true
  | .error _ => false

/-! ## main.py — exception handlers -/

/-- A raised `fastapi.HTTPException`. -/
structure HTTPException where
  status_code : Nat
  detail : String
deriving DecidableEq, Repr

/-- One entry of the validation handler's details:
`f"{field}: {message}"` from main.py lines 51-53. -/
def formatFieldError (p : String × String) : String :=
  p.1 ++ ": " ++ p.2

/-- `validation_exception_handler` (main.py lines 43-66): a 422 response body
whose details joins every field error with "; ". -/
def validationExceptionResponse (errs : List (String × String)) : ErrorResponse :=
  ⟨⟨"validation_error", "Request validation failed",
    String.intercalate "; " (errs.map formatFieldError)⟩⟩

/-- `http_exception_handler` (main.py lines 69-84): echoes the exception's
status code with an "http_error" body. -/
def httpExceptionResponse (e : HTTPException) : ErrorResponse :=
  ⟨⟨"http_error", "HTTP " ++ toString e.status_code, e.detail⟩⟩

/-- `general_exception_handler` (main.py lines 103-119). -/
def internalErrorResponse : ErrorResponse :=
  ⟨⟨"internal_error", "An unexpected error occurred",
    "Internal server error - please try again later"⟩⟩

/-! ## bedrock_client.py -/

/-- One element of `response.output.message.content`; `text` may be absent. -/
structure ContentBlock where
  text : Option String
deriving DecidableEq, Repr

/-- `response.output.message`; the `content` key holds a list. -/
structure MessageBlock where
  content : List ContentBlock
deriving DecidableEq, Repr

/-- `response.output`; the `message` key may be absent. -/
structure OutputBlock where
  message : Option MessageBlock
deriving DecidableEq, Repr

/-- The provider's `converse` response; the `output` key may be absent. -/
structure ConverseResponse where
  output : Option OutputBlock
deriving DecidableEq, Repr

/-- `str(e)` of the `KeyError` Python raises when key `k` is missing. -/
def mkKeyError (k : String) : String := "KeyError: " ++ k

/-- `str(e)` of the `IndexError` Python raises on `content[0]` of an empty list. -/
def indexErrorMsg : String := "IndexError: list index out of range"

/-- The lookup `response["output"]["message"]["content"][0]["text"]`
(bedrock_client.py line 35): each missing level raises, modelled as the
string representation of the raised exception. -/
def extractText (r : ConverseResponse) : Except String String :=
  match r.output with
  | none => .error (mkKeyError "output")
  | some o =>
    match o.message with
    | none => .error (mkKeyError "message")
    | some m =>
      match m.content with
      | [] => .error indexErrorMsg
      | c :: _ =>
        match c.text with
        | none => .error (mkKeyError "text")
        | some t => .ok t

/-- Outcome of the provider's `converse` call: it either raises an exception
whose `str` is `msg`, or returns a response structure. -/
inductive ConverseOutcome where
  | raises (msg : String)
  | returns (resp : ConverseResponse)

/-- The dict returned by `BedrockClient.process_request`: on success it holds
the keys `success=True`, `response`, `model`; on failure `success=False`,
`error`, `model`. -/
inductive ProcessResult where
  | success (response : String) (model : String)
  | failure (error : String) (model : String)
deriving DecidableEq, Repr

/-- `BedrockClient.process_request` (bedrock_client.py lines 21-50): builds a
single user message, calls `converse`, extracts the first content element's
text; any exception — from the provider call or from the extraction — is
caught and returned as a failure dict carrying `str(e)` and the configured
model id. -/
def process_request (model_id : String) (converse : String → ConverseOutcome)
    (prompt : String) : ProcessResult :=
  match converse prompt with
  | .raises msg => .failure msg model_id
  | .returns resp =>
    match extractText resp with
    | .ok text => .success text model_id
    | .error msg => .failure msg model_id

/-! ## main.py — the /process handler -/

/-- The template branch of prompt construction (main.py lines 160-163). -/
def promptTemplate (task content : String) : String :=
  "Task: " ++ task ++ "\nContent to process: " ++ content ++
    "\n\nPlease process the above content according to the specified task."

/-- Prompt construction (main.py lines 154-163): content verbatim for
"gtd-clarification", the fixed template otherwise. -/
def mkPrompt (req : ProcessRequest) : String :=
  if req.task = "gtd-clarification" then req.content
  else promptTemplate req.task req.content

/-- Outcome of `await bedrock_client.process_request(...)` as seen by the
handler: the call returns a result dict, or some other exception is raised
during handling (e.g. a substituted adapter misbehaving). -/
inductive AdapterOutcome where
  | result (r : ProcessResult)
  | raises (msg : String)

/-- Outcome of a Python block: normal return, a raised `HTTPException`, or
any other raised exception (carrying `str(e)`). -/
inductive PyOutcome (α : Type) where
  | ret (a : α)
  | raiseHTTP (e : HTTPException)
  | raiseOther (msg : String)
deriving DecidableEq, Repr

/-- The Content-Type guard of main.py lines 148-149:
`if not content_type or not content_type.startswith("application/json")`. -/
def rejectContentType (ct : String) : Prop :=
  ct = "" ∨ ¬ (pyStartsWith ct "application/json" = true)

instance (ct : String) : Decidable (rejectContentType ct) := by
  unfold rejectContentType; infer_instance

/-- The body of the handler's `try` block (main.py lines 147-192): the
Content-Type check (raises 415), prompt construction, the adapter call, and
the mapping of the adapter's dict to a `ProcessResponse` (success) or a 503
`HTTPException` (failure). `elapsed_ms` is the measured elapsed time. -/
def processTryBody (contentType : String) (req : ProcessRequest)
    (adapter : String → AdapterOutcome) (elapsed_ms : Nat) :
    PyOutcome ProcessResponse :=
  if rejectContentType contentType then
    .raiseHTTP ⟨415, "Content-Type must be application/json"⟩
  else
    match adapter (mkPrompt req) with
    | .raises msg => .raiseOther msg
    | .result (.success text model) =>
      .ret ⟨text, "success",
        ⟨model, wordCount req.content + wordCount text, elapsed_ms⟩⟩
    | .result (.failure err _m) =>
      .raiseHTTP ⟨503, "AI service error: " ++ err⟩

/-- The whole `process` handler (main.py lines 140-211): the `try` body, the
`except HTTPException: raise` clause, and the `except Exception` clause that
returns a 200 `ProcessResponse` with status "error", the configured model id
and zero tokens. -/
def process (model_id : String) (contentType : String) (req : ProcessRequest)
    (adapter : String → AdapterOutcome) (elapsed_ms : Nat) :
    PyOutcome ProcessResponse :=
  match processTryBody contentType req adapter elapsed_ms with
  | .ret r => .ret r
  | .raiseHTTP e => .raiseHTTP e
  | .raiseOther msg =>
    .ret ⟨"Error processing request: " ++ msg, "error", ⟨model_id, 0, elapsed_ms⟩⟩

/-- An HTTP response from the `/process` route: a `ProcessResponse` body with
its status code, or an `ErrorResponse` body with its status code. -/
inductive HttpResponse where
  | jsonOk (statusCode : Nat) (body : ProcessResponse)
  | jsonError (statusCode : Nat) (body : ErrorResponse)
deriving DecidableEq, Repr

/-- Status code of an `HttpResponse`. -/
def statusOf : HttpResponse → Nat
  | .jsonOk c _ => c
  | .jsonError c _ => c

/-- The full `/process` route: FastAPI validates the `ProcessRequest` body
parameter before the handler body runs (a `RequestValidationError` is mapped
to 422 by `validation_exception_handler`); then the handler runs, a raised
`HTTPException` is mapped by `http_exception_handler`, and any other escaped
exception by `general_exception_handler` (500). -/
def handleProcessRoute (model_id : String) (contentType : String)
    (body : RawBody) (adapter : String → AdapterOutcome) (elapsed_ms : Nat) :
    HttpResponse :=
  match validateProcessRequest body with
  | .error errs => .jsonError 422 (validationExceptionResponse errs)
  | .ok req =>
    match process model_id contentType req adapter elapsed_ms with
    | .ret r => .jsonOk 200 r
    | .raiseHTTP e => .jsonError e.status_code (httpExceptionResponse e)
    | .raiseOther _ => .jsonError 500 internalErrorResponse

/-! ## config.py -/

/-- The environment as seen by `Settings`: each variable is set (`some`) or
unset (`none`); values are strings as in the process environment. -/
structure EnvConfig where
  aws_region : Option String
  aws_bearer_token_bedrock : Option String
  bedrock_model_id : Option String
  log_level : Option String
  host : Option String
  port : Option String
deriving DecidableEq, Repr

/-- The `Settings` object of config.py after successful construction. -/
structure Settings where
  aws_region : String
  aws_bearer_token_bedrock : String
  bedrock_model_id : String
  log_level : String
  host : String
  port : Int
deriving DecidableEq, Repr

/-- The default `bedrock_model_id` of config.py line 13. -/
def defaultModelId : String := "us.anthropic.claude-sonnet-4-20250514-v1:0"

/-- The message of `validate_bedrock_api_key` (config.py line 21). -/
def tokenRequiredMsg : String :=
  "AWS_BEARER_TOKEN_BEDROCK is required and cannot be empty"

/-- Pydantic's error for a `port` value that is not an integer. -/
def portInvalidMsg : String := "port: Input should be a valid integer"

/-- Value of a list of decimal digit characters. -/
def digitsToNat (l : List Char) : Nat :=
  l.foldl (fun acc c => acc * 10 + (c.toNat - 48)) 0

/-- Pydantic's lax string-to-int coercion for the `port: int` field: optional
sign and decimal digits, surrounding whitespace ignored. -/
def parsePortStr (s : String) : Option Int :=
  match (pyStrip s).data with
  | [] => none
  | c :: rest =>
    if c = '-' then
      if rest ≠ [] ∧ rest.all Char.isDigit then
        some (-(digitsToNat rest : Int))
      else none
    else
      if (c :: rest).all Char.isDigit then
        some ((digitsToNat (c :: rest) : Int))
      else none

/-- The stripped credential token as `validate_bedrock_api_key` sees it:
the environment value, or the field default "" when unset, stripped. -/
def tokenOfEnv (env : EnvConfig) : String :=
  pyStrip (env.aws_bearer_token_bedrock.getD "")

/-- The coerced `port` value: the field default 8000 when unset, otherwise
the environment string coerced to an integer (none on coercion failure). -/
def envPortVal (env : EnvConfig) : Option Int :=
  match env.port with
  | none => some 8000
  | some s => parsePortStr s

/-- `Settings()` construction (config.py lines 8-25): defaults for every field
but the token; the token (default "") is stripped and must be non-empty; the
`port` field must coerce to an integer.  On failure the collected error
messages are returned. -/
def mkSettings (env : EnvConfig) : Except (List String) Settings :=
  if tokenOfEnv env = "" then
    match envPortVal env with
    | none => .error [tokenRequiredMsg, portInvalidMsg]
    | some _ => .error [tokenRequiredMsg]
  else
    match envPortVal env with
    | none => .error [portInvalidMsg]
    | some p =>
      .ok ⟨env.aws_region.getD "us-east-1", tokenOfEnv env,
        env.bedrock_model_id.getD defaultModelId,
        env.log_level.getD "INFO", env.host.getD "localhost", p⟩

/-! ## Predicates and concrete inputs used in the claims -/

/-- Acceptance of a `/process` body exactly as claim C3 words it: length
bounds on the TRIMMED field values, and the trimmed values not
whitespace-only. -/
def specTrimmedValid (b : RawBody) : Prop :=
  (∃ t, b.task = some t ∧ 1 ≤ (pyStrip t).length ∧
    (pyStrip t).length ≤ 100 ∧ pyStrip t ≠ "") ∧
  (∃ c, b.content = some c ∧ 1 ≤ (pyStrip c).length ∧
    (pyStrip c).length ≤ 10000 ∧ pyStrip c ≠ "")

/-- Acceptance of one field as the code implements it: the field is present,
the RAW value has length in [1, maxLen], and it is not whitespace-only. -/
def rawFieldValid (maxLen : Nat) (v : Option String) : Prop :=
  ∃ s, v = some s ∧ 1 ≤ s.length ∧ s.length ≤ maxLen ∧ pyStrip s ≠ ""

/-- A task of 100 characters plus a trailing space: raw length 101, trimmed
length 100. -/
def oversizedTask : String := String.mk (List.replicate 100 'x' ++ [' '])

/-- Body used against claim C3: trimmed lengths in bounds, raw task length
out of bounds. -/
def c3body : RawBody := ⟨some oversizedTask, some "hello"⟩

/-- Body whose task fails field validation, used against claim C4. -/
def c4body : RawBody := ⟨some "", some "hello"⟩

/-- A concrete adapter for closed scenarios. -/
def stubAdapter : String → AdapterOutcome :=
  fun _ => .result (.success "ok" "m1")

/-- Environment with a present, non-blank token and a non-numeric port, used
against claim C9. -/
def c9env : EnvConfig := ⟨none, some "tok-123", none, none, none, some "abc"⟩

/-! ## Shared lemmas -/

deriving instance DecidableEq for Except

/-- A Content-Type starting with "application/json" passes the guard. -/
theorem not_rejectContentType {ct : String}
    (hct : pyStartsWith ct "application/json" = true) :
    ¬ rejectContentType ct := by
  rintro (h | h)
  · subst h; exact absurd hct (by decide)
  · exact h hct

/-- A normal return of the try body always carries status "success". -/
theorem processTryBody_ret_status (contentType : String) (req : ProcessRequest)
    (adapter : String → AdapterOutcome) (elapsed_ms : Nat)
    (r : ProcessResponse)
    (h : processTryBody contentType req adapter elapsed_ms = .ret r) :
    r.status = "success" := by
  unfold processTryBody at h
  split at h
  · exact PyOutcome.noConfusion h
  · split at h
    · exact PyOutcome.noConfusion h
    · cases h; rfl
    · exact PyOutcome.noConfusion h

/-- Shape of every error produced by `validateField`: it names the field. -/
theorem validateField_error_name (name : String) (maxLen : Nat)
    (v : Option String) (p : String × String)
    (h : validateField name maxLen v = .error p) : p.1 = name := by
  unfold validateField at h
  cases v with
  | none => cases h; rfl
  | some s =>
    repeat' split at h
    all_goals
      first
        | (cases h; rfl)
        | exact Except.noConfusion h

/-- A field passes `validateField` exactly when the raw value is present,
within the raw length bounds, and not whitespace-only. -/
theorem validateField_ok_iff (name : String) (maxLen : Nat)
    (v : Option String) :
    isOkE (validateField name maxLen v) = true ↔ rawFieldValid maxLen v := by
  unfold rawFieldValid
  cases v with
  | none => simp [validateField, isOkE]
  | some s =>
    simp only [validateField]
    split_ifs with h1 h2 h3
    · simp only [isOkE, Option.some.injEq, Bool.false_eq_true, false_iff]
      rintro ⟨s', hs, hlen, -, -⟩
      cases hs
      omega
    · simp only [isOkE, Option.some.injEq, Bool.false_eq_true, false_iff]
      rintro ⟨s', hs, -, hlen, -⟩
      cases hs
      omega
    · simp only [isOkE, Option.some.injEq, Bool.false_eq_true, false_iff]
      rintro ⟨s', hs, -, -, hstrip⟩
      cases hs
      exact hstrip h3
    · simp only [isOkE, Option.some.injEq, true_iff]
      exact ⟨s, rfl, by omega, by omega, h3⟩

/-- The whole body passes validation exactly when both fields do. -/
theorem validateProcessRequest_ok_iff (b : RawBody) :
    isAccepted b = true ↔
      rawFieldValid 100 b.task ∧ rawFieldValid 10000 b.content := by
  rw [← validateField_ok_iff "body.task" 100 b.task,
    ← validateField_ok_iff "body.content" 10000 b.content]
  unfold isAccepted validateProcessRequest
  cases h1 : validateField "body.task" 100 b.task <;>
    cases h2 : validateField "body.content" 10000 b.content <;>
      simp [isOkE]

/-! ## Claims -/

/-- Claim C1: for a validated request with an acceptable Content-Type, when
the adapter returns a success result the route responds 200 with the
adapter's response text, status "success", the adapter's reported model, and
tokens_used equal to the word count of the request's content plus the word
count of the response text. -/
theorem c1_success_response
    (model_id contentType : String) (body : RawBody) (req : ProcessRequest)
    (adapter : String → AdapterOutcome) (elapsed_ms : Nat)
    (text model : String)
    (hval : validateProcessRequest body = .ok req)
    (hct : pyStartsWith contentType "application/json" = true)
    (had : adapter (mkPrompt req) = .result (.success text model)) :
    handleProcessRoute model_id contentType body adapter elapsed_ms =
      .jsonOk 200 ⟨text, "success",
        ⟨model, wordCount req.content + wordCount text, elapsed_ms⟩⟩ := by
  simp only [handleProcessRoute, process, processTryBody, hval,
    if_neg (not_rejectContentType hct), had]

/-- Witness for C1: the concrete scenario task "organize",
content "Clean up my inbox", adapter success "1. Clean inbox" on model "m1";
the route returns 200 with 4 + 3 = 7 tokens. -/
theorem c1_success_response_check :
    handleProcessRoute "m0" "application/json"
        ⟨some "organize", some "Clean up my inbox"⟩
        (fun _ => .result (.success "1. Clean inbox" "m1")) 5 =
      .jsonOk 200 ⟨"1. Clean inbox", "success", ⟨"m1", 7, 5⟩⟩ := by
  have h := c1_success_response "m0" "application/json"
    ⟨some "organize", some "Clean up my inbox"⟩
    ⟨"organize", "Clean up my inbox"⟩
    (fun _ => .result (.success "1. Clean inbox" "m1")) 5
    "1. Clean inbox" "m1" (by decide) (by decide) rfl
  rw [h]
  decide

/-- Claim C2: the prompt passed to the adapter is exactly `mkPrompt req`:
the content verbatim when the task is "gtd-clarification", the fixed template
embedding task and content otherwise; and the try body consults the adapter
only at that prompt. -/
theorem c2_prompt_construction (req : ProcessRequest) :
    (req.task = "gtd-clarification" → mkPrompt req = req.content) ∧
    (req.task ≠ "gtd-clarification" →
      mkPrompt req = promptTemplate req.task req.content) ∧
    (∀ (a1 a2 : String → AdapterOutcome),
      a1 (mkPrompt req) = a2 (mkPrompt req) →
      ∀ ct e, processTryBody ct req a1 e = processTryBody ct req a2 e) := by
  refine ⟨fun h => ?_, fun h => ?_, fun a1 a2 h ct e => ?_⟩
  · unfold mkPrompt; rw [if_pos h]
  · unfold mkPrompt; rw [if_neg h]
  · unfold processTryBody; rw [h]

/-- Witness for C2: with task "gtd-clarification" the prompt is the content
itself; with task "organize" it is the template. -/
theorem c2_prompt_construction_check :
    mkPrompt ⟨"gtd-clarification", "Process this inbox item"⟩ =
        "Process this inbox item" ∧
    mkPrompt ⟨"organize", "Clean up"⟩ = promptTemplate "organize" "Clean up" :=
  ⟨(c2_prompt_construction ⟨"gtd-clarification", "Process this inbox item"⟩).1 rfl,
   (c2_prompt_construction ⟨"organize", "Clean up"⟩).2.1 (by decide)⟩

/-- Claim C5: for a validated request with an acceptable Content-Type, when
the adapter returns a failure result the route responds 503 with an
"http_error" body whose message is "HTTP 503" and whose details embeds the
adapter's error string. -/
theorem c5_adapter_failure_503
    (model_id contentType : String) (body : RawBody) (req : ProcessRequest)
    (adapter : String → AdapterOutcome) (elapsed_ms : Nat) (err m : String)
    (hval : validateProcessRequest body = .ok req)
    (hct : pyStartsWith contentType "application/json" = true)
    (had : adapter (mkPrompt req) = .result (.failure err m)) :
    handleProcessRoute model_id contentType body adapter elapsed_ms =
      .jsonError 503
        ⟨⟨"http_error", "HTTP 503", "AI service error: " ++ err⟩⟩ := by
  have hmsg : ("HTTP " ++ toString 503 : String) = "HTTP 503" := by decide
  simp only [handleProcessRoute, process, processTryBody, hval,
    if_neg (not_rejectContentType hct), had, httpExceptionResponse, hmsg]

/-- Witness for C5: a concrete throttling failure maps to 503 with the
provider's error text inside details. -/
theorem c5_adapter_failure_503_check :
    handleProcessRoute "m0" "application/json" ⟨some "organize", some "hi"⟩
        (fun _ => .result (.failure "ThrottlingException: slow down" "m1")) 2 =
      .jsonError 503 ⟨⟨"http_error", "HTTP 503",
        "AI service error: ThrottlingException: slow down"⟩⟩ :=
  c5_adapter_failure_503 "m0" "application/json" ⟨some "organize", some "hi"⟩
    ⟨"organize", "hi"⟩
    (fun _ => .result (.failure "ThrottlingException: slow down" "m1")) 2
    "ThrottlingException: slow down" "m1" (by decide) (by decide) rfl

/-- Claim C6: `process_request` is total (never raises past its boundary);
when the provider raises, or the extraction of the first content element's
text fails, it returns a failure carrying the exception's string
representation and the configured model id; on a well-formed response it
returns success with the extracted text and the configured model id. -/
theorem c6_adapter_never_raises
    (model_id : String) (converse : String → ConverseOutcome)
    (prompt : String) :
    (∀ msg, converse prompt = .raises msg →
      process_request model_id converse prompt = .failure msg model_id) ∧
    (∀ resp msg, converse prompt = .returns resp →
      extractText resp = .error msg →
      process_request model_id converse prompt = .failure msg model_id) ∧
    (∀ resp text, converse prompt = .returns resp →
      extractText resp = .ok text →
      process_request model_id converse prompt = .success text model_id) := by
  refine ⟨fun msg h => ?_, fun resp msg h hx => ?_, fun resp text h hx => ?_⟩
  · simp only [process_request, h]
  · simp only [process_request, h, hx]
  · simp only [process_request, h, hx]

/-- Witness for C6: a provider exception becomes a failure dict; a response
with an empty content list becomes a failure with the index error text; a
well-formed response becomes a success with the first element's text. -/
theorem c6_adapter_never_raises_check :
    process_request "m1" (fun _ => .raises "AccessDeniedException") "p" =
        .failure "AccessDeniedException" "m1" ∧
    process_request "m1" (fun _ => .returns ⟨some ⟨some ⟨[]⟩⟩⟩) "p" =
        .failure indexErrorMsg "m1" ∧
    process_request "m1"
        (fun _ => .returns ⟨some ⟨some ⟨[⟨some "hello"⟩, ⟨none⟩]⟩⟩⟩) "p" =
        .success "hello" "m1" :=
  ⟨(c6_adapter_never_raises "m1" (fun _ => .raises "AccessDeniedException")
      "p").1 "AccessDeniedException" rfl,
   (c6_adapter_never_raises "m1" (fun _ => .returns ⟨some ⟨some ⟨[]⟩⟩⟩)
      "p").2.1 ⟨some ⟨some ⟨[]⟩⟩⟩ indexErrorMsg rfl rfl,
   (c6_adapter_never_raises "m1"
      (fun _ => .returns ⟨some ⟨some ⟨[⟨some "hello"⟩, ⟨none⟩]⟩⟩⟩)
      "p").2.2 ⟨some ⟨some ⟨[⟨some "hello"⟩, ⟨none⟩]⟩⟩⟩ "hello" rfl rfl⟩

/-- Claim C7: for a validated request with an acceptable Content-Type, when a
non-HTTP exception is raised during handling (here: by the adapter call), the
route responds 200 with a `ProcessResponse` of status "error" whose result
embeds the exception text, whose metadata.model is the configured model id,
and whose tokens_used is 0. -/
theorem c7_generic_exception_200
    (model_id contentType : String) (body : RawBody) (req : ProcessRequest)
    (adapter : String → AdapterOutcome) (elapsed_ms : Nat) (msg : String)
    (hval : validateProcessRequest body = .ok req)
    (hct : pyStartsWith contentType "application/json" = true)
    (had : adapter (mkPrompt req) = .raises msg) :
    handleProcessRoute model_id contentType body adapter elapsed_ms =
      .jsonOk 200 ⟨"Error processing request: " ++ msg, "error",
        ⟨model_id, 0, elapsed_ms⟩⟩ := by
  simp only [handleProcessRoute, process, processTryBody, hval,
    if_neg (not_rejectContentType hct), had]

/-- Witness for C7: a raised `AttributeError` surfaces as a 200 response with
status "error", the configured model id and zero tokens. -/
theorem c7_generic_exception_200_check :
    handleProcessRoute "m0" "application/json" ⟨some "organize", some "hi"⟩
        (fun _ => .raises "AttributeError: boom") 9 =
      .jsonOk 200 ⟨"Error processing request: AttributeError: boom", "error",
        ⟨"m0", 0, 9⟩⟩ :=
  c7_generic_exception_200 "m0" "application/json"
    ⟨some "organize", some "hi"⟩ ⟨"organize", "hi"⟩
    (fun _ => .raises "AttributeError: boom") 9 "AttributeError: boom"
    (by decide) (by decide) rfl

/-- Counterexample to claim C3 as stated: a task of 100 characters plus a
trailing space satisfies the claim's trimmed-length bounds (trimmed length
100, non-blank), yet the body is rejected, because the length bounds are
checked on the raw value before trimming. -/
theorem c3_trimmed_bounds_counterexample :
    specTrimmedValid c3body ∧ isAccepted c3body = false := by
  refine ⟨⟨⟨oversizedTask, rfl, ?_, ?_, ?_⟩,
    ⟨"hello", rfl, ?_, ?_, ?_⟩⟩, ?_⟩ <;> decide

/-- Claim C3 (amended): a body is accepted by field validation if and only if
the raw task value is present with length in [1,100] and not whitespace-only,
and the raw content value is present with length in [1,10000] and not
whitespace-only (the accepted values are then stored trimmed); and any
violation yields a 422 validation-error response. -/
theorem c3_validation_amended (b : RawBody) :
    (isAccepted b = true ↔
      rawFieldValid 100 b.task ∧ rawFieldValid 10000 b.content) ∧
    (∀ model_id ct adapter e errs, validateProcessRequest b = .error errs →
      handleProcessRoute model_id ct b adapter e =
        .jsonError 422 (validationExceptionResponse errs)) := by
  refine ⟨validateProcessRequest_ok_iff b, ?_⟩
  intro model_id ct adapter e errs hv
  simp only [handleProcessRoute, hv]

/-- Witness for the amended C3: a body with surrounding whitespace but valid
raw lengths is accepted; a body missing its task yields the 422 response. -/
theorem c3_validation_amended_check :
    isAccepted ⟨some " organize ", some "hi"⟩ = true ∧
    handleProcessRoute "m0" "application/json" ⟨none, some "hi"⟩
        stubAdapter 0 =
      .jsonError 422
        (validationExceptionResponse [("body.task", "Field required")]) :=
  ⟨(c3_validation_amended ⟨some " organize ", some "hi"⟩).1.mpr
      ⟨⟨" organize ", rfl, by decide, by decide, by decide⟩,
       ⟨"hi", rfl, by decide, by decide, by decide⟩⟩,
   (c3_validation_amended ⟨none, some "hi"⟩).2 "m0" "application/json"
      stubAdapter 0 [("body.task", "Field required")] (by decide)⟩

/-- Counterexample to claim C4 as stated: with Content-Type "text/plain" and
a body whose task fails validation, the route answers 422 from field
validation — not 415 — because the body model is validated before the
handler's media-type check runs. -/
theorem c4_media_type_counterexample :
    handleProcessRoute "m0" "text/plain" c4body stubAdapter 0 =
      .jsonError 422 (validationExceptionResponse
        [("body.task", "String should have at least 1 character")]) ∧
    statusOf (handleProcessRoute "m0" "text/plain" c4body stubAdapter 0) ≠
      415 := by
  exact ⟨by decide, by decide⟩

/-- Claim C4 (amended): for a request whose Content-Type does not begin with
"application/json" and whose body passes field validation, the handler fails
with 415 before the inference adapter is reached (the result does not depend
on the adapter); field validation itself runs before the media-type check, so
an invalid body yields 422 regardless of Content-Type. -/
theorem c4_media_type_amended
    (model_id ct : String) (b : RawBody) (req : ProcessRequest)
    (adapter adapter' : String → AdapterOutcome) (e : Nat)
    (hct : pyStartsWith ct "application/json" = false)
    (hval : validateProcessRequest b = .ok req) :
    handleProcessRoute model_id ct b adapter e =
      .jsonError 415 ⟨⟨"http_error", "HTTP 415",
        "Content-Type must be application/json"⟩⟩ ∧
    handleProcessRoute model_id ct b adapter e =
      handleProcessRoute model_id ct b adapter' e ∧
    (∀ b' errs, validateProcessRequest b' = .error errs →
      handleProcessRoute model_id ct b' adapter e =
        .jsonError 422 (validationExceptionResponse errs)) := by
  have hrej : rejectContentType ct := Or.inr (by simp [hct])
  have hmsg : ("HTTP " ++ toString 415 : String) = "HTTP 415" := by decide
  refine ⟨?_, ?_, ?_⟩
  · simp only [handleProcessRoute, process, processTryBody, hval,
      if_pos hrej, httpExceptionResponse, hmsg]
  · simp only [handleProcessRoute, process, processTryBody, hval,
      if_pos hrej]
  · intro b' errs hv
    simp only [handleProcessRoute, hv]

/-- Witness for the amended C4: a valid body sent as "text/plain" gets the
415 http_error response. -/
theorem c4_media_type_amended_check :
    handleProcessRoute "m0" "text/plain" ⟨some "organize", some "hi"⟩
        stubAdapter 3 =
      .jsonError 415 ⟨⟨"http_error", "HTTP 415",
        "Content-Type must be application/json"⟩⟩ :=
  (c4_media_type_amended "m0" "text/plain" ⟨some "organize", some "hi"⟩
    ⟨"organize", "hi"⟩ stubAdapter stubAdapter 3 (by decide) (by decide)).1

/-- Claim C8: a body failing validation yields 422 with error type
"validation_error" and details equal to the "; "-joined "field: reason"
entries; the error list mentions every violated field — the task entry when
the task is invalid and the content entry when the content is invalid, not
only the first. -/
theorem c8_validation_details_all_fields
    (model_id ct : String) (b : RawBody)
    (adapter : String → AdapterOutcome) (e : Nat)
    (errs : List (String × String))
    (hval : validateProcessRequest b = .error errs) :
    handleProcessRoute model_id ct b adapter e =
      .jsonError 422 (validationExceptionResponse errs) ∧
    (validationExceptionResponse errs).error.type = "validation_error" ∧
    (validationExceptionResponse errs).error.details =
      String.intercalate "; " (errs.map formatFieldError) ∧
    (isOkE (validateField "body.task" 100 b.task) = false →
      ∃ msg, ("body.task", msg) ∈ errs) ∧
    (isOkE (validateField "body.content" 10000 b.content) = false →
      ∃ msg, ("body.content", msg) ∈ errs) := by
  refine ⟨by simp only [handleProcessRoute, hval], rfl, rfl, ?_, ?_⟩
  · intro htask
    unfold validateProcessRequest at hval
    cases h1 : validateField "body.task" 100 b.task with
    | ok t => rw [h1] at htask; exact absurd htask (by simp [isOkE])
    | error p =>
      have hname := validateField_error_name _ _ _ _ h1
      have hp : ("body.task", p.2) = p := by rw [← hname]
      cases h2 : validateField "body.content" 10000 b.content with
      | ok c =>
        rw [h1, h2] at hval
        cases hval
        exact ⟨p.2, by rw [hp]; exact List.mem_singleton_self p⟩
      | error q =>
        rw [h1, h2] at hval
        cases hval
        exact ⟨p.2, by rw [hp]; exact List.mem_cons_self p [q]⟩
  · intro hcontent
    unfold validateProcessRequest at hval
    cases h2 : validateField "body.content" 10000 b.content with
    | ok c => rw [h2] at hcontent; exact absurd hcontent (by simp [isOkE])
    | error q =>
      have hname := validateField_error_name _ _ _ _ h2
      have hq : ("body.content", q.2) = q := by rw [← hname]
      cases h1 : validateField "body.task" 100 b.task with
      | ok t =>
        rw [h1, h2] at hval
        cases hval
        exact ⟨q.2, by rw [hq]; exact List.mem_singleton_self q⟩
      | error p =>
        rw [h1, h2] at hval
        cases hval
        refine ⟨q.2, ?_⟩
        rw [hq]
        exact List.mem_cons_of_mem p (List.mem_singleton_self q)

/-- Witness for C8: a body with an empty task and a whitespace-only content
yields the 422 response whose error list carries an entry for each of the two
violated fields. -/
theorem c8_validation_details_all_fields_check :
    handleProcessRoute "m0" "application/json" ⟨some "", some "   "⟩
        stubAdapter 0 =
      .jsonError 422 (validationExceptionResponse
        [("body.task", "String should have at least 1 character"),
         ("body.content",
          "Value error, Field cannot be empty or whitespace only")]) ∧
    (∃ msg, ("body.task", msg) ∈
      [("body.task", "String should have at least 1 character"),
       ("body.content",
        "Value error, Field cannot be empty or whitespace only")]) ∧
    (∃ msg, ("body.content", msg) ∈
      [("body.task", "String should have at least 1 character"),
       ("body.content",
        "Value error, Field cannot be empty or whitespace only")]) := by
  have h := c8_validation_details_all_fields "m0" "application/json"
    ⟨some "", some "   "⟩ stubAdapter 0
    [("body.task", "String should have at least 1 character"),
     ("body.content", "Value error, Field cannot be empty or whitespace only")]
    (by decide)
  exact ⟨h.1, h.2.2.2.1 (by decide), h.2.2.2.2 (by decide)⟩

/-- Counterexample to claim C9 as stated: with a present, non-blank token but
a non-numeric port value, `Settings` construction still fails — so it does
not fail ONLY when the token is absent or blank. -/
theorem c9_port_counterexample :
    tokenOfEnv c9env ≠ "" ∧ mkSettings c9env = .error [portInvalidMsg] := by
  exact ⟨by decide, by decide⟩

/-- Claim C9 (amended): `Settings` construction fails exactly when the
stripped token is empty (absent variables default to "") or the port value
does not coerce to an integer; every failure carries a descriptive message;
and on success the stored token is the stripped, non-empty value while
region, model id, log level, host and port take their documented defaults
when unset. -/
theorem c9_settings_amended (env : EnvConfig) :
    (isOkE (mkSettings env) = false ↔
      tokenOfEnv env = "" ∨ envPortVal env = none) ∧
    (∀ errs, mkSettings env = .error errs → errs ≠ []) ∧
    (∀ s, mkSettings env = .ok s →
      s.aws_bearer_token_bedrock = tokenOfEnv env ∧
      s.aws_bearer_token_bedrock ≠ "" ∧
      (env.aws_region = none → s.aws_region = "us-east-1") ∧
      (env.bedrock_model_id = none → s.bedrock_model_id = defaultModelId) ∧
      (env.log_level = none → s.log_level = "INFO") ∧
      (env.host = none → s.host = "localhost") ∧
      (env.port = none → s.port = 8000)) := by
  refine ⟨?_, ?_, ?_⟩
  · by_cases ht : tokenOfEnv env = "" <;>
      cases hp : envPortVal env <;>
        simp [mkSettings, ht, hp, isOkE]
  · intro errs herr
    by_cases ht : tokenOfEnv env = "" <;>
      cases hp : envPortVal env <;>
        simp [mkSettings, ht, hp] at herr <;>
          (subst herr; simp)
  · intro s hs
    by_cases ht : tokenOfEnv env = ""
    · cases hp : envPortVal env <;> simp [mkSettings, ht, hp] at hs
    · cases hp : envPortVal env with
      | none => simp [mkSettings, ht, hp] at hs
      | some p =>
        rw [mkSettings, if_neg ht, hp] at hs
        simp only [Except.ok.injEq] at hs
        subst hs
        refine ⟨rfl, ht, fun h => by simp [h], fun h => by simp [h],
          fun h => by simp [h], fun h => by simp [h], fun h => ?_⟩
        unfold envPortVal at hp
        rw [h] at hp
        simp only [Option.some.injEq] at hp
        show p = 8000
        omega

/-- Witness for the amended C9: an empty environment fails construction,
while an environment holding only a padded token succeeds with the stripped
token and every documented default. -/
theorem c9_settings_amended_check :
    isOkE (mkSettings ⟨none, none, none, none, none, none⟩) = false ∧
    (⟨"us-east-1", "secret", defaultModelId, "INFO", "localhost", 8000⟩ :
        Settings).aws_bearer_token_bedrock ≠ "" ∧
    (⟨"us-east-1", "secret", defaultModelId, "INFO", "localhost", 8000⟩ :
        Settings).aws_region = "us-east-1" ∧
    (⟨"us-east-1", "secret", defaultModelId, "INFO", "localhost", 8000⟩ :
        Settings).port = 8000 := by
  have h := (c9_settings_amended
    ⟨none, some " secret ", none, none, none, none⟩).2.2
    ⟨"us-east-1", "secret", defaultModelId, "INFO", "localhost", 8000⟩
    (by decide)
  exact ⟨(c9_settings_amended ⟨none, none, none, none, none, none⟩).1.mpr
      (Or.inl (by decide)),
    h.2.1, h.2.2.1 rfl, h.2.2.2.2.2.2 rfl⟩

/-- Claim C10: an `HTTPException` raised in the try block (the 415 guard and
the 503 adapter-failure translation) is re-raised by the handler, never
converted into a 200 status="error" response; a 200 response with status
"error" can arise only from a non-HTTP exception; and at route level a
re-raised `HTTPException` surfaces with its own status code via the
http_error envelope. -/
theorem c10_http_exceptions_reraised
    (model_id ct : String) (req : ProcessRequest)
    (adapter : String → AdapterOutcome) (e : Nat) :
    (∀ exc, processTryBody ct req adapter e = .raiseHTTP exc →
      process model_id ct req adapter e = .raiseHTTP exc) ∧
    (∀ r, process model_id ct req adapter e = .ret r → r.status = "error" →
      ∃ msg, processTryBody ct req adapter e = .raiseOther msg ∧
        r = ⟨"Error processing request: " ++ msg, "error",
          ⟨model_id, 0, e⟩⟩) ∧
    (∀ b exc, validateProcessRequest b = .ok req →
      processTryBody ct req adapter e = .raiseHTTP exc →
      handleProcessRoute model_id ct b adapter e =
        .jsonError exc.status_code (httpExceptionResponse exc)) := by
  refine ⟨?_, ?_, ?_⟩
  · intro exc h
    simp only [process, h]
  · intro r hr hstatus
    cases htb : processTryBody ct req adapter e with
    | ret r0 =>
      simp only [process, htb, PyOutcome.ret.injEq] at hr
      have hsucc := processTryBody_ret_status ct req adapter e r0 htb
      rw [← hr, hsucc] at hstatus
      exact absurd hstatus (by decide)
    | raiseHTTP exc =>
      simp only [process, htb] at hr
      exact PyOutcome.noConfusion hr
    | raiseOther msg =>
      simp only [process, htb, PyOutcome.ret.injEq] at hr
      exact ⟨msg, rfl, hr.symm⟩
  · intro b exc hval h
    simp only [handleProcessRoute, hval, process, h]

/-- Witness for C10: with a bad Content-Type the try body raises the 415
`HTTPException` and the handler re-raises it unchanged. -/
theorem c10_http_exceptions_reraised_check :
    process "m0" "text/plain" ⟨"organize", "hi"⟩ stubAdapter 1 =
      .raiseHTTP ⟨415, "Content-Type must be application/json"⟩ :=
  (c10_http_exceptions_reraised "m0" "text/plain" ⟨"organize", "hi"⟩
    stubAdapter 1).1 ⟨415, "Content-Type must be application/json"⟩ (by decide)

end ObsidianGTD
